import Mathlib

/-!
Shallow embedding of the gilmo repository: the registration form
(`src/src/App.tsx`, two deployment variants), the webhook SMS dispatcher
(`src/supabase/functions/send-sms/index.ts` and the second file of
`src/unnamed/part_000`), and the manual-approval SMS dispatcher (the first
file of `src/unnamed/part_000`).

Strings are modelled as Lean `String`; JavaScript string operations are
defined below over the underlying character list.  Machine-level pieces
(SHA-256, HMAC, UTF-8, hex) work over `List Nat` byte lists with explicit
`% 2^32` wrapping.  External effects (request-body parsing, `fetch`,
`response.json()`, storage uploads, database writes) are supplied as
`Except`-valued oracles, so each handler is a pure function from its inputs
and an effect oracle to a result that records the HTTP status, the gateway
calls issued, and the database writes attempted.
-/

namespace Gilmo

/-! ## JavaScript string operations -/

/-- `value.replace(/\D/g, '')`: keep only ASCII digits. -/
def stripNonDigits (s : String) : String :=
  ⟨s.data.filter Char.isDigit⟩

/-- `s.slice(0, n)` on a JavaScript string. -/
def strTake (s : String) (n : Nat) : String :=
  ⟨s.data.take n⟩

/-- `s.slice(n)` on a JavaScript string. -/
def strDrop (s : String) (n : Nat) : String :=
  ⟨s.data.drop n⟩

/-- `s.slice(a, b)` on a JavaScript string, for `0 ≤ a ≤ b`. -/
def strSlice (s : String) (a b : Nat) : String :=
  ⟨(s.data.drop a).take (b - a)⟩

/-- The string consists of ASCII digits only. -/
def allDigits (s : String) : Bool :=
  s.data.all Char.isDigit

/-- JavaScript `s.trim()`: drop leading and trailing whitespace. -/
def jsTrim (s : String) : String :=
  ⟨((s.data.dropWhile Char.isWhitespace).reverse.dropWhile Char.isWhitespace).reverse⟩

/-- JavaScript `s.split(sep)` for a one-character separator. -/
def jsSplit (sep : Char) : List Char → List (List Char)
  | [] => [[]]
  | c :: rest =>
    let r := jsSplit sep rest
    if c = sep then [] :: r
    else (c :: r.headD []) :: r.tail

/-- `s.split(sep)[0]`. -/
def firstSplit (sep : Char) (s : String) : String :=
  ⟨(jsSplit sep s.data).headD []⟩

/-- `s.split(sep).pop()`: the last segment. -/
def lastSplit (sep : Char) (s : String) : String :=
  ⟨(jsSplit sep s.data).getLastD []⟩

/-- Leading digit run of a character list, as a number. -/
def digitsVal (l : List Char) : Option Nat :=
  let d := l.takeWhile Char.isDigit
  if d.isEmpty then none
  else some (d.foldl (fun a c => 10 * a + (c.toNat - 48)) 0)

/-- JavaScript `parseInt(s)` (base 10): skip leading whitespace, optional
sign, then the longest digit run; `none` is `NaN`. -/
def jsParseInt (s : String) : Option Int :=
  match s.data.dropWhile Char.isWhitespace with
  | '-' :: rest => (digitsVal rest).map fun n => -(n : Int)
  | '+' :: rest => (digitsVal rest).map fun n => (n : Int)
  | l => (digitsVal l).map fun n => (n : Int)

/-- `x < k` under JavaScript semantics where `x` may be `NaN` (`none`):
any comparison against `NaN` is false. -/
def nanLt (x : Option Int) (k : Int) : Bool :=
  match x with
  | none => false
  | some v => v < k

/-- `k < x` under JavaScript semantics where `x` may be `NaN` (`none`). -/
def nanGt (x : Option Int) (k : Int) : Bool :=
  match x with
  | none => false
  | some v => k < v

/-! ## Bytes: UTF-8 and hex

These model the platform primitives the handlers call (`TextEncoder`,
`encodeHex` from the Deno standard library). -/

/-- UTF-8 encoding of one character. -/
def utf8Char (c : Char) : List Nat :=
  let n := c.toNat
  if n < 128 then [n]
  else if n < 2048 then [192 + n / 64, 128 + n % 64]
  else if n < 65536 then [224 + n / 4096, 128 + (n / 64) % 64, 128 + n % 64]
  else [240 + n / 262144, 128 + (n / 4096) % 64, 128 + (n / 64) % 64, 128 + n % 64]

/-- `new TextEncoder().encode(s)`: UTF-8 bytes of a string. -/
def utf8Bytes (s : String) : List Nat :=
  s.data.flatMap utf8Char

/-- Lower-case hex character for a value below 16. -/
def hexChar (n : Nat) : Char :=
  if n < 10 then Char.ofNat (48 + n) else Char.ofNat (87 + n)

/-- `encodeHex` from `std/encoding/hex.ts`: two lower-case hex characters
per byte. -/
def encodeHex (bytes : List Nat) : String :=
  ⟨bytes.flatMap fun b => [hexChar (b / 16), hexChar (b % 16)]⟩

theorem encodeHex_length (bytes : List Nat) :
    (encodeHex bytes).length = 2 * bytes.length := by
  induction bytes with
  | nil => rfl
  | cons b bs ih =>
    simp only [encodeHex, String.length] at ih ⊢
    simp only [List.flatMap_cons, List.length_append, List.length_cons,
      List.length_nil, ih]
    omega

/-! ## SHA-256 and HMAC-SHA256

Models `crypto.subtle.sign('HMAC', key, data)` with a SHA-256 hash, the
primitive `getSolapiAuthHeader` uses.  Words are `Nat` wrapped at `2^32`,
messages are byte lists. -/

/-- Wrap to a 32-bit word. -/
def w32 (x : Nat) : Nat := x % 4294967296

/-- Right-rotation of a 32-bit word. -/
def rotr32 (n x : Nat) : Nat := w32 ((x >>> n) ||| (x <<< (32 - n)))

def shaCh (x y z : Nat) : Nat := (x &&& y) ^^^ ((x ^^^ 4294967295) &&& z)

def shaMaj (x y z : Nat) : Nat := (x &&& y) ^^^ (x &&& z) ^^^ (y &&& z)

def bigSigma0 (x : Nat) : Nat := rotr32 2 x ^^^ rotr32 13 x ^^^ rotr32 22 x

def bigSigma1 (x : Nat) : Nat := rotr32 6 x ^^^ rotr32 11 x ^^^ rotr32 25 x

def smallSigma0 (x : Nat) : Nat := rotr32 7 x ^^^ rotr32 18 x ^^^ (x >>> 3)

def smallSigma1 (x : Nat) : Nat := rotr32 17 x ^^^ rotr32 19 x ^^^ (x >>> 10)

/-- The 64 SHA-256 round constants of FIPS 180-4, written in decimal. -/
def shaK : List Nat :=
  [1116352408, 1899447441, 3049323471, 3921009573, 961987163,
   1508970993, 2453635748, 2870763221, 3624381080, 310598401,
   607225278, 1426881987, 1925078388, 2162078206, 2614888103,
   3248222580, 3835390401, 4022224774, 264347078, 604807628,
   770255983, 1249150122, 1555081692, 1996064986, 2554220882,
   2821834349, 2952996808, 3210313671, 3336571891, 3584528711,
   113926993, 338241895, 666307205, 773529912, 1294757372,
   1396182291, 1695183700, 1986661051, 2177026350, 2456956037,
   2730485921, 2820302411, 3259730800, 3345764771, 3516065817,
   3600352804, 4094571909, 275423344, 430227734, 506948616,
   659060556, 883997877, 958139571, 1322822218, 1537002063,
   1747873779, 1955562222, 2024104815, 2227730452, 2361852424,
   2428436474, 2756734187, 3204031479, 3329325298]

structure Sha256State where
  a : Nat
  b : Nat
  c : Nat
  d : Nat
  e : Nat
  f : Nat
  g : Nat
  h : Nat

/-- The eight SHA-256 initial hash values of FIPS 180-4, in decimal. -/
def shaInit : Sha256State :=
  { a := 1779033703, b := 3144134277, c := 1013904242, d := 2773480762,
    e := 1359893119, f := 2600822924, g := 528734635, h := 1541459225 }

/-- Big-endian 32-bit words of one 64-byte chunk. -/
def chunkWords (chunk : List Nat) : List Nat :=
  (List.range 16).map fun i =>
    chunk.getD (4 * i) 0 * 16777216 + chunk.getD (4 * i + 1) 0 * 65536 +
      chunk.getD (4 * i + 2) 0 * 256 + chunk.getD (4 * i + 3) 0

/-- Extend the 16 message words to the 64-entry message schedule. -/
def extendWords (ws : List Nat) : List Nat :=
  (List.range 48).foldl (fun w _ =>
    let n := w.length
    let s0 := smallSigma0 (w.getD (n - 15) 0)
    let s1 := smallSigma1 (w.getD (n - 2) 0)
    w ++ [w32 (w.getD (n - 16) 0 + s0 + w.getD (n - 7) 0 + s1)]) ws

/-- One SHA-256 compression round. -/
def sha256Round (s : Sha256State) (k wv : Nat) : Sha256State :=
  let t1 := w32 (s.h + bigSigma1 s.e + shaCh s.e s.f s.g + k + wv)
  let t2 := w32 (bigSigma0 s.a + shaMaj s.a s.b s.c)
  { a := w32 (t1 + t2), b := s.a, c := s.b, d := s.c,
    e := w32 (s.d + t1), f := s.e, g := s.f, h := s.g }

/-- Compress one 64-byte chunk into the running state. -/
def processChunk (st : Sha256State) (chunk : List Nat) : Sha256State :=
  let ws := extendWords (chunkWords chunk)
  let s := (shaK.zip ws).foldl (fun s kw => sha256Round s kw.1 kw.2) st
  { a := w32 (st.a + s.a), b := w32 (st.b + s.b), c := w32 (st.c + s.c),
    d := w32 (st.d + s.d), e := w32 (st.e + s.e), f := w32 (st.f + s.f),
    g := w32 (st.g + s.g), h := w32 (st.h + s.h) }

/-- SHA-256 padding: `0x80`, zeros to 56 mod 64, 8-byte big-endian bit length. -/
def padMessage (msg : List Nat) : List Nat :=
  let bitLen := 8 * msg.length
  let padZeros := (64 - (msg.length + 9) % 64) % 64
  msg ++ [128] ++ List.replicate padZeros 0 ++
    (List.range 8).map fun i => (bitLen >>> (8 * (7 - i))) % 256

/-- Big-endian bytes of a 32-bit word. -/
def wordBytes (x : Nat) : List Nat :=
  [(x >>> 24) % 256, (x >>> 16) % 256, (x >>> 8) % 256, x % 256]

def stateBytes (s : Sha256State) : List Nat :=
  wordBytes s.a ++ wordBytes s.b ++ wordBytes s.c ++ wordBytes s.d ++
    wordBytes s.e ++ wordBytes s.f ++ wordBytes s.g ++ wordBytes s.h

/-- SHA-256 of a byte list. -/
def sha256 (msg : List Nat) : List Nat :=
  let p := padMessage msg
  let final := (List.range (p.length / 64)).foldl
    (fun st i => processChunk st ((p.drop (64 * i)).take 64)) shaInit
  stateBytes final

theorem sha256_length (msg : List Nat) : (sha256 msg).length = 32 := by
  simp [sha256, stateBytes, wordBytes]

/-- HMAC-SHA256 with byte-list key and message (RFC 2104, block size 64). -/
def hmacSha256 (key msg : List Nat) : List Nat :=
  let k0 := if 64 < key.length then sha256 key else key
  let k := k0 ++ List.replicate (64 - k0.length) 0
  let inner := sha256 ((k.map fun b => b ^^^ 54) ++ msg)
  sha256 ((k.map fun b => b ^^^ 92) ++ inner)

theorem hmacSha256_length (key msg : List Nat) :
    (hmacSha256 key msg).length = 32 := by
  simp [hmacSha256, sha256_length]

/-! ## SMS dispatcher model

Both edge functions in `src/unnamed/part_000` and the earlier
`src/supabase/functions/send-sms/index.ts` are modelled as pure functions.
Nondeterministic inputs (`new Date().toISOString()`, `crypto.randomUUID()`)
and fallible awaits (`req.json()`, `fetch`, `response.json()`, the supabase
update) are fields of a world record; a thrown exception is an
`Except.error` whose payload is the JavaScript `String(error)` value. -/

/-- Deployment configuration read from `Deno.env`. -/
structure SolapiCfg where
  apiKey : String
  apiSecret : String
  sender : String

/-- `interface SmsRequest` of the manual-approval handler; an absent or
empty JSON field is the empty string (both are falsy in the guard). -/
structure SmsRequest where
  phone : String
  message : String
  registrationId : String
deriving DecidableEq, Repr

/-- `interface Registration` destructured from the webhook payload record. -/
structure RegistrationRecord where
  id : String
  name : String
  phone : String
deriving DecidableEq, Repr

/-- One outbound POST to the Solapi send endpoint: the fields of the single
entry of `messages` plus the Authorization header. -/
structure GatewayCall where
  url : String
  authorization : String
  toPhone : String
  sender : String
  text : String
  msgType : String
deriving DecidableEq, Repr, Inhabited

/-- One `registrations` table update: the columns set and the `eq('id', _)`
filter value. -/
structure DbUpdate where
  sms_sent : Bool
  sms_sent_at : Option String
  id : String
deriving DecidableEq, Repr

/-- What one handler invocation did: HTTP status of the response, the error
body text if any, the gateway calls issued, the single row update attempted
(if any) and whether it was applied by the database. -/
structure HandlerResult where
  status : Nat
  errorMsg : Option String
  calls : List GatewayCall
  attempted : Option DbUpdate
  applied : Bool
deriving Repr

def solapiUrl : String := "https://api.solapi.com/messages/v4/send-many/detail"

/-- `getSolapiAuthHeader` of `src/unnamed/part_000` (both files): HMAC-SHA256
over `date + salt` keyed by the API secret, hex-encoded into the header. -/
def getSolapiAuthHeader (cfg : SolapiCfg) (date salt : String) : String :=
  "HMAC-SHA256 apiKey=" ++ cfg.apiKey ++ ", date=" ++ date ++ ", salt=" ++ salt ++
    ", signature=" ++ encodeHex (hmacSha256 (utf8Bytes cfg.apiSecret) (utf8Bytes (date ++ salt)))

/-- The Authorization header of `src/supabase/functions/send-sms/index.ts`
line 38: the template literal ends right after `signature=`, so the
signature component is the empty string. -/
def indexAuthHeader (cfg : SolapiCfg) (date salt : String) : String :=
  "HMAC-SHA256 apiKey=" ++ cfg.apiKey ++ ", date=" ++ date ++ ", salt=" ++ salt ++
    ", signature="

/-- The deposit-notice message template of both webhook handlers. -/
def depositNotice (name : String) : String :=
  "[GILMO\x27S PEOPLE] " ++ name ++
    "님, 파티 신청이 접수되었습니다.\n\n입금 안내:\n- 계좌: [은행명] [계좌번호]\n- 금액: [금액]원\n- 예금주: [예금주명]\n\n입금 확인 후 최종 승인 문자를 보내드립니다."

/-- Effect oracle for one manual-approval invocation.  `jsonResult` is the
parse of the gateway response body (`smsResponse.json()`), carrying the raw
body on success; `dbResult` is `.error` when the update await rejects, and
otherwise reports whether the database applied the update. -/
structure ManualWorld where
  method : String
  body : Except String SmsRequest
  date : String
  salt : String
  fetchResult : Except String Unit
  jsonResult : Except String String
  updateDate : String
  dbResult : Except String Bool

/-- The gateway POST issued by the manual-approval handler: recipient is
`phone.replace(/\D/g, '')`, type is `message.length > 90 ? 'LMS' : 'SMS'`. -/
def manualCall (cfg : SolapiCfg) (w : ManualWorld) (r : SmsRequest) : GatewayCall :=
  { url := solapiUrl, authorization := getSolapiAuthHeader cfg w.date w.salt,
    toPhone := stripNonDigits r.phone, sender := cfg.sender, text := r.message,
    msgType := if 90 < r.message.length then "LMS" else "SMS" }

/-- The manual-approval handler (first file of `src/unnamed/part_000`). -/
def manualHandler (cfg : SolapiCfg) (w : ManualWorld) : HandlerResult :=
  if w.method = "OPTIONS" then
    { status := 200, errorMsg := none, calls := [], attempted := none, applied := false }
  else
    match w.body with
    | .error e =>
      { status := 500, errorMsg := some e, calls := [], attempted := none, applied := false }
    | .ok r =>
      if r.phone = "" ∨ r.message = "" then
        { status := 400, errorMsg := some "phone and message are required",
          calls := [], attempted := none, applied := false }
      else
        let call := manualCall cfg w r
        match w.fetchResult with
        | .error e =>
          { status := 500, errorMsg := some e, calls := [call], attempted := none, applied := false }
        | .ok _ =>
          match w.jsonResult with
          | .error e =>
            { status := 500, errorMsg := some e, calls := [call], attempted := none, applied := false }
          | .ok _ =>
            if r.registrationId ≠ "" then
              let upd : DbUpdate :=
                { sms_sent := true, sms_sent_at := some w.updateDate, id := r.registrationId }
              match w.dbResult with
              | .error e =>
                { status := 500, errorMsg := some e, calls := [call],
                  attempted := some upd, applied := false }
              | .ok ok =>
                { status := 200, errorMsg := none, calls := [call],
                  attempted := some upd, applied := ok }
            else
              { status := 200, errorMsg := none, calls := [call], attempted := none, applied := false }

/-- Effect oracle for one webhook invocation (shared by the two webhook
handler variants, whose code differs only in the Authorization header). -/
structure WebhookWorld where
  body : Except String RegistrationRecord
  date : String
  salt : String
  fetchResult : Except String Unit
  jsonResult : Except String String
  updateDate : String
  dbResult : Except String Bool

/-- The gateway POST issued by a webhook handler: recipient is the record's
phone verbatim, text is the deposit notice, type is the literal `'LMS'`. -/
def webhookCall (auth : SolapiCfg → String → String → String)
    (cfg : SolapiCfg) (w : WebhookWorld) (r : RegistrationRecord) : GatewayCall :=
  { url := solapiUrl, authorization := auth cfg w.date w.salt, toPhone := r.phone,
    sender := cfg.sender, text := depositNotice r.name, msgType := "LMS" }

/-- Shared body of the two webhook handlers, parameterized by how the
Authorization header is built. -/
def webhookHandlerWith (auth : SolapiCfg → String → String → String)
    (cfg : SolapiCfg) (w : WebhookWorld) : HandlerResult :=
  match w.body with
  | .error e =>
    { status := 500, errorMsg := some e, calls := [], attempted := none, applied := false }
  | .ok r =>
    let call := webhookCall auth cfg w r
    match w.fetchResult with
    | .error e =>
      { status := 500, errorMsg := some e, calls := [call], attempted := none, applied := false }
    | .ok _ =>
      match w.jsonResult with
      | .error e =>
        { status := 500, errorMsg := some e, calls := [call], attempted := none, applied := false }
      | .ok _ =>
        let upd : DbUpdate :=
          { sms_sent := true, sms_sent_at := some w.updateDate, id := r.id }
        match w.dbResult with
        | .error e =>
          { status := 500, errorMsg := some e, calls := [call],
            attempted := some upd, applied := false }
        | .ok ok =>
          { status := 200, errorMsg := none, calls := [call],
            attempted := some upd, applied := ok }

/-- The webhook handler of the second file of `src/unnamed/part_000`
(signed Authorization header). -/
def webhookHandler : SolapiCfg → WebhookWorld → HandlerResult :=
  webhookHandlerWith getSolapiAuthHeader

/-- The webhook handler of `src/supabase/functions/send-sms/index.ts`
(Authorization header with an empty signature). -/
def indexHandler : SolapiCfg → WebhookWorld → HandlerResult :=
  webhookHandlerWith indexAuthHeader

/-- A stored `registrations` row, restricted to the dispatch-relevant columns. -/
structure RegRow where
  id : String
  sms_sent : Bool
  sms_sent_at : Option String
deriving DecidableEq, Repr

/-- The effect of a handler invocation on one stored row: the update is
applied only if the database reported success and the id filter matches. -/
def applyResult (res : HandlerResult) (row : RegRow) : RegRow :=
  match res.attempted, res.applied with
  | some u, true =>
    if u.id = row.id then { row with sms_sent := u.sms_sent, sms_sent_at := u.sms_sent_at }
    else row
  | _, _ => row

/-! ## Registration form model

`src/src/App.tsx` holds two deployment variants of the same component
(separated by a document marker): variant 1 (lines 1–698) and variant 2
(lines 700ff, the MIDNIGHT IN SADANG branding).  `formatPhone`,
`validateForm` and `handleSubmit` of each variant are embedded below as
pure functions; browser-side effects (image compression, storage upload,
row insert) are an oracle record. -/

/-- `formatPhone` of `App.tsx` (identical in both variants): strip
non-digits, truncate to 11 digits, and re-insert hyphens. -/
def formatPhone (value : String) : String :=
  let digits := strTake (stripNonDigits value) 11
  if digits.length ≤ 3 then digits
  else if digits.length ≤ 7 then strTake digits 3 ++ "-" ++ strDrop digits 3
  else strTake digits 3 ++ "-" ++ strSlice digits 3 7 ++ "-" ++ strDrop digits 7

inductive Gender
  | male
  | female
deriving DecidableEq, Repr

/-- A browser `File`, reduced to the only field the code reads. -/
structure JsFile where
  name : String
deriving DecidableEq, Repr

/-- Variant 1 `formData` state (gender `''` is `none`). -/
structure Form1 where
  name : String
  birthDate : String
  gender : Option Gender
  phone : String
  instagramId : String
  noInstagram : Bool
  height : String
  weight : String

/-- Variant 1 `errors` object: one optional message per field key. -/
structure Errors1 where
  name : Option String := none
  gender : Option String := none
  birthDate : Option String := none
  phone : Option String := none
  instagramId : Option String := none
  height : Option String := none
  weight : Option String := none
  bodyPhoto : Option String := none
  facePhoto : Option String := none
deriving DecidableEq, Repr

/-- The `errors.birthDate` key produced by variant 1 `validateForm`: the
missing-value message, else (with a gender selected) the gender-specific
eligibility check on `parseInt(birthDate.split('-')[0])`. -/
def birthDateError1 (f : Form1) : Option String :=
  if f.birthDate = "" then some "생년월일을 선택해주세요"
  else
    match f.gender with
    | none => none
    | some g =>
      let y := jsParseInt (firstSplit '-' f.birthDate)
      match g with
      | .male =>
        if nanLt y 1993 || nanGt y 2006 then some "남성은 93~06년생만 신청 가능합니다" else none
      | .female =>
        if nanLt y 1993 || nanGt y 2007 then some "여성은 93~07년생만 신청 가능합니다" else none

/-- Variant 1 `validateForm` (each key of the JS `errors` object is governed
by its own independent checks). -/
def validateForm1 (f : Form1) (bodyPhoto facePhoto : Option JsFile) : Errors1 :=
  { name := if jsTrim f.name = "" then some "성함을 입력해주세요" else none
    gender := if f.gender = none then some "성별을 선택해주세요" else none
    birthDate := birthDateError1 f
    phone := if (stripNonDigits f.phone).length < 10 then some "올바른 연락처를 입력해주세요" else none
    instagramId :=
      if ¬f.noInstagram ∧ jsTrim f.instagramId = "" then
        some "인스타 ID를 입력하거나 \x22없음\x22을 선택해주세요"
      else none
    height := if jsTrim f.height = "" then some "키를 입력해주세요" else none
    weight := if jsTrim f.weight = "" then some "몸무게를 입력해주세요" else none
    bodyPhoto := if bodyPhoto = none then some "전신 사진을 업로드해주세요" else none
    facePhoto := if facePhoto = none then some "얼굴 사진을 업로드해주세요" else none }

/-- `Object.keys(errors).length > 0` for variant 1. -/
def hasErrors1 (e : Errors1) : Bool :=
  e.name.isSome || e.gender.isSome || e.birthDate.isSome || e.phone.isSome ||
    e.instagramId.isSome || e.height.isSome || e.weight.isSome ||
    e.bodyPhoto.isSome || e.facePhoto.isSome

/-- Variant 2 `formData` state. -/
structure Form2 where
  name : String
  birthDate : String
  gender : Option Gender
  eventDate : String
  phone : String
  location : String
  job : String
  height : String
  weight : String
  instagramId : String
  noInstagram : Bool
  charm : String
  preferredStyle : String
  participationType : String
  referralSource : String
  agreeAlcohol : Bool
  agreeTerms : Bool
  agreePrivacy : Bool
  agreeRefund : Bool

/-- Variant 2 `errors` object. -/
structure Errors2 where
  name : Option String := none
  gender : Option String := none
  eventDate : Option String := none
  birthDate : Option String := none
  phone : Option String := none
  location : Option String := none
  job : Option String := none
  height : Option String := none
  weight : Option String := none
  instagramId : Option String := none
  participationType : Option String := none
  bodyPhoto : Option String := none
  facePhoto : Option String := none
  agreeAlcohol : Option String := none
  agreeTerms : Option String := none
  agreePrivacy : Option String := none
  agreeRefund : Option String := none
deriving DecidableEq, Repr

/-- The `errors.birthDate` key produced by variant 2 `validateForm`: an
eight-character `YYYYMMDD` string, a generic range check on year, month and
day, then the gender-specific eligibility window (an `else if` chain). -/
def birthDateError2 (f : Form2) : Option String :=
  if f.birthDate = "" ∨ f.birthDate.length ≠ 8 then some "생년월일 8자리를 입력해주세요"
  else
    let y := jsParseInt (strSlice f.birthDate 0 4)
    let m := jsParseInt (strSlice f.birthDate 4 6)
    let d := jsParseInt (strSlice f.birthDate 6 8)
    if nanLt y 1980 || nanGt y 2010 || nanLt m 1 || nanGt m 12 || nanLt d 1 || nanGt d 31 then
      some "올바른 생년월일을 입력해주세요"
    else if f.gender = some .male ∧ (nanLt y 1990 || nanGt y 2004) then
      some "남성은 90~04년생만 신청 가능합니다"
    else if f.gender = some .female ∧ (nanLt y 1992 || nanGt y 2005) then
      some "여성은 92~05년생만 신청 가능합니다"
    else none

/-- Variant 2 `validateForm`. -/
def validateForm2 (f : Form2) (bodyPhoto facePhoto : Option JsFile) : Errors2 :=
  { name := if jsTrim f.name = "" then some "성함을 입력해주세요" else none
    gender := if f.gender = none then some "성별을 선택해주세요" else none
    eventDate := if f.eventDate = "" then some "참가 희망 날짜를 선택해주세요" else none
    birthDate := birthDateError2 f
    phone := if (stripNonDigits f.phone).length < 10 then some "올바른 연락처를 입력해주세요" else none
    location := if jsTrim f.location = "" then some "거주지를 입력해주세요" else none
    job := if jsTrim f.job = "" then some "직업을 입력해주세요" else none
    height := if jsTrim f.height = "" then some "키를 입력해주세요" else none
    weight := if jsTrim f.weight = "" then some "몸무게를 입력해주세요" else none
    instagramId :=
      if ¬f.noInstagram ∧ jsTrim f.instagramId = "" then
        some "인스타 ID를 입력하거나 \x22없음\x22을 선택해주세요"
      else none
    participationType := if f.participationType = "" then some "참여 구분을 선택해주세요" else none
    bodyPhoto := if bodyPhoto = none then some "전신 사진을 업로드해주세요" else none
    facePhoto := if facePhoto = none then some "얼굴 사진을 업로드해주세요" else none
    agreeAlcohol := if ¬f.agreeAlcohol then some "주류 대리구매 동의는 필수입니다" else none
    agreeTerms := if ¬f.agreeTerms then some "파티 이용 규정 동의는 필수입니다" else none
    agreePrivacy := if ¬f.agreePrivacy then some "개인정보 수집 동의는 필수입니다" else none
    agreeRefund := if ¬f.agreeRefund then some "취소 및 환불 규정 동의는 필수입니다" else none }

/-- `Object.keys(errors).length > 0` for variant 2. -/
def hasErrors2 (e : Errors2) : Bool :=
  e.name.isSome || e.gender.isSome || e.eventDate.isSome || e.birthDate.isSome ||
    e.phone.isSome || e.location.isSome || e.job.isSome || e.height.isSome ||
    e.weight.isSome || e.instagramId.isSome || e.participationType.isSome ||
    e.bodyPhoto.isSome || e.facePhoto.isSome || e.agreeAlcohol.isSome ||
    e.agreeTerms.isSome || e.agreePrivacy.isSome || e.agreeRefund.isSome

/-- `f.name.split('.').pop() || 'jpg'`: the extension used in the upload key. -/
def extOf (fileName : String) : String :=
  let last := lastSplit '.' fileName
  if last = "" then "jpg" else last

/-- Client deployment configuration (project URL behind the supabase client). -/
structure ClientCfg where
  supabaseUrl : String

/-- `supabase.storage.from(bucket).getPublicUrl(path).data.publicUrl`:
models the storage client's public-URL derivation from the object key. -/
def getPublicUrl (cfg : ClientCfg) (bucket path : String) : String :=
  cfg.supabaseUrl ++ "/storage/v1/object/public/" ++ bucket ++ "/" ++ path

/-- Effect oracle for one `handleSubmit` run: the compressed files produced
by `imageCompression` (or a thrown error), `Date.now()`, the two storage
uploads (`.ok path` is the stored object key the client echoes back), and
the row insert. -/
structure SubmitWorld where
  compress : Except String (JsFile × JsFile)
  ts : Nat
  bodyUp : Except String String
  faceUp : Except String String
  insertResult : Except String Unit

/-- Is an oracle result a failure? -/
def isErr {α : Type} : Except String α → Bool
  | .error _ => true
  | .ok _ => false

/-- The row inserted by variant 1 `handleSubmit` (columns not present in the
insert object, such as `sms_sent_at`, default to NULL in the store). -/
structure Row1 where
  name : String
  birth_date : String
  gender : Option Gender
  phone : String
  instagram_id : String
  height : String
  weight : String
  body_photo_url : String
  face_photo_url : String
  sms_sent : Bool
  sms_sent_at : Option String
deriving Repr

/-- The row inserted by variant 2 `handleSubmit`. -/
structure Row2 where
  name : String
  birth_date : String
  gender : Option Gender
  event_date : String
  phone : String
  location : String
  job : String
  height : String
  weight : String
  instagram_id : String
  charm : String
  preferred_style : String
  participation_type : String
  referral_source : String
  body_photo_url : String
  face_photo_url : String
  sms_sent : Bool
  sms_sent_at : Option String
deriving Repr

/-- What one `handleSubmit` run did: whether compression started, the two
upload object keys if the uploads were issued, the row handed to `insert`
if the insert was issued, whether the store accepted it, and whether the UI
reached the success state. -/
structure SubmitOutcome (Row : Type) where
  compressionAttempted : Bool
  uploadKeys : Option (String × String)
  inserted : Option Row
  insertOk : Bool
  success : Bool

/-- The body-photo upload key `${ts}_body.${ext(file)}`. -/
def bodyKey (ts : Nat) (f : JsFile) : String :=
  toString ts ++ "_body." ++ extOf f.name

/-- The face-photo upload key `${ts}_face.${ext(file)}`. -/
def faceKey (ts : Nat) (f : JsFile) : String :=
  toString ts ++ "_face." ++ extOf f.name

/-- The insert object of variant 1 `handleSubmit` (columns absent from the
object, such as `sms_sent_at`, are NULL in the store). -/
def insertRow1 (cfg : ClientCfg) (f : Form1) (bodyPath facePath : String) : Row1 :=
  { name := jsTrim f.name
    birth_date := f.birthDate
    gender := f.gender
    phone := stripNonDigits f.phone
    instagram_id := if f.noInstagram then "없음" else jsTrim f.instagramId
    height := jsTrim f.height
    weight := jsTrim f.weight
    body_photo_url := getPublicUrl cfg "registrations" bodyPath
    face_photo_url := getPublicUrl cfg "registrations" facePath
    sms_sent := false
    sms_sent_at := none }

/-- The insert object of variant 2 `handleSubmit`. -/
def insertRow2 (cfg : ClientCfg) (f : Form2) (bodyPath facePath : String) : Row2 :=
  { name := jsTrim f.name
    birth_date := strSlice f.birthDate 0 4 ++ "-" ++ strSlice f.birthDate 4 6 ++
      "-" ++ strSlice f.birthDate 6 8
    gender := f.gender
    event_date := f.eventDate
    phone := stripNonDigits f.phone
    location := jsTrim f.location
    job := jsTrim f.job
    height := jsTrim f.height
    weight := jsTrim f.weight
    instagram_id := if f.noInstagram then "없음" else jsTrim f.instagramId
    charm := jsTrim f.charm
    preferred_style := jsTrim f.preferredStyle
    participation_type := f.participationType
    referral_source := jsTrim f.referralSource
    body_photo_url := getPublicUrl cfg "registrations" bodyPath
    face_photo_url := getPublicUrl cfg "registrations" facePath
    sms_sent := false
    sms_sent_at := none }

/-- Common `handleSubmit` skeleton of both variants (their `try` blocks are
line-for-line identical): gate on validation, compress, upload both photos,
insert the row built from the two returned storage paths.  Any thrown step
lands in the `catch` and nothing after it runs. -/
def handleSubmitGen {Row : Type} (hasErr : Bool) (mkRow : String → String → Row)
    (w : SubmitWorld) : SubmitOutcome Row :=
  if hasErr then
    { compressionAttempted := false, uploadKeys := none, inserted := none,
      insertOk := false, success := false }
  else
    match w.compress with
    | .error _ =>
      { compressionAttempted := true, uploadKeys := none, inserted := none,
        insertOk := false, success := false }
    | .ok (compBody, compFace) =>
      let keys := (bodyKey w.ts compBody, faceKey w.ts compFace)
      match w.bodyUp, w.faceUp with
      | .error _, _ =>
        { compressionAttempted := true, uploadKeys := some keys, inserted := none,
          insertOk := false, success := false }
      | .ok _, .error _ =>
        { compressionAttempted := true, uploadKeys := some keys, inserted := none,
          insertOk := false, success := false }
      | .ok bodyPath, .ok facePath =>
        let row := mkRow bodyPath facePath
        match w.insertResult with
        | .error _ =>
          { compressionAttempted := true, uploadKeys := some keys, inserted := some row,
            insertOk := false, success := false }
        | .ok _ =>
          { compressionAttempted := true, uploadKeys := some keys, inserted := some row,
            insertOk := true, success := true }

/-- Variant 1 `handleSubmit`. -/
def handleSubmit1 (cfg : ClientCfg) (f : Form1) (bodyPhoto facePhoto : Option JsFile)
    (w : SubmitWorld) : SubmitOutcome Row1 :=
  handleSubmitGen (hasErrors1 (validateForm1 f bodyPhoto facePhoto)) (insertRow1 cfg f) w

/-- Variant 2 `handleSubmit`. -/
def handleSubmit2 (cfg : ClientCfg) (f : Form2) (bodyPhoto facePhoto : Option JsFile)
    (w : SubmitWorld) : SubmitOutcome Row2 :=
  handleSubmitGen (hasErrors2 (validateForm2 f bodyPhoto facePhoto)) (insertRow2 cfg f) w

/-! ## Helper lemmas -/

theorem data_append (a b : String) : (a ++ b).data = a.data ++ b.data := rfl

theorem mk_data (s : String) : String.mk s.data = s := rfl

/-- Stripping non-digits yields a digits-only string. -/
theorem allDigits_stripNonDigits (s : String) : allDigits (stripNonDigits s) = true := by
  simp only [allDigits, stripNonDigits, List.all_eq_true]
  intro c hc
  exact (List.mem_filter.mp hc).2

/-- Stripping non-digits from a digits-only string is the identity. -/
theorem stripNonDigits_of_allDigits {s : String} (h : allDigits s = true) :
    stripNonDigits s = s := by
  simp only [allDigits, List.all_eq_true] at h
  simp only [stripNonDigits, List.filter_eq_self.mpr h, mk_data]

/-- The digits of a hyphen-formatted phone value are the first eleven digits
of the raw input: `formatPhone` only reorders them around hyphens. -/
theorem stripNonDigits_formatPhone (v : String) :
    stripNonDigits (formatPhone v) = strTake (stripNonDigits v) 11 := by
  have hd : ∀ c ∈ (strTake (stripNonDigits v) 11).data, c.isDigit = true := by
    intro c hc
    exact (List.mem_filter.mp (List.mem_of_mem_take hc)).2
  simp only [formatPhone]
  split
  · exact stripNonDigits_of_allDigits (by simpa [allDigits] using hd)
  · split
    · set s := strTake (stripNonDigits v) 11 with hs
      show stripNonDigits (strTake s 3 ++ "-" ++ strDrop s 3) = s
      have : (strTake s 3 ++ "-" ++ strDrop s 3).data =
          s.data.take 3 ++ ['-'] ++ s.data.drop 3 := rfl
      simp only [stripNonDigits, this, List.filter_append]
      rw [List.filter_eq_self.mpr fun c hc => hd c (List.mem_of_mem_take hc),
        List.filter_eq_self.mpr fun c hc => hd c (List.mem_of_mem_drop hc)]
      have hdash : List.filter Char.isDigit ['-'] = [] := by decide
      rw [hdash, List.append_nil, List.take_append_drop]
    · set s := strTake (stripNonDigits v) 11 with hs
      show stripNonDigits
          (strTake s 3 ++ "-" ++ strSlice s 3 7 ++ "-" ++ strDrop s 7) = s
      have hdata : (strTake s 3 ++ "-" ++ strSlice s 3 7 ++ "-" ++ strDrop s 7).data =
          s.data.take 3 ++ ['-'] ++ (s.data.drop 3).take 4 ++ ['-'] ++ s.data.drop 7 := rfl
      simp only [stripNonDigits, hdata, List.filter_append]
      have hdash : List.filter Char.isDigit ['-'] = [] := by decide
      rw [List.filter_eq_self.mpr fun c hc => hd c (List.mem_of_mem_take hc),
        List.filter_eq_self.mpr
          (fun c hc => hd c (List.mem_of_mem_drop (List.mem_of_mem_take hc))),
        List.filter_eq_self.mpr fun c hc => hd c (List.mem_of_mem_drop hc),
        hdash, List.append_nil, List.append_nil]
      have h7 : s.data.drop 7 = (s.data.drop 3).drop 4 := by
        rw [List.drop_drop]
      rw [h7, List.append_assoc, List.take_append_drop, List.take_append_drop]

/-- The deposit-notice template adds 115 characters around the name. -/
theorem depositNotice_length (name : String) :
    (depositNotice name).length = 115 + name.length := by
  have h1 : ("[GILMO\x27S PEOPLE] " : String).length = 17 := rfl
  have h2 : ("님, 파티 신청이 접수되었습니다.\n\n입금 안내:\n- 계좌: [은행명] [계좌번호]\n- 금액: [금액]원\n- 예금주: [예금주명]\n\n입금 확인 후 최종 승인 문자를 보내드립니다." : String).length = 98 := rfl
  simp only [depositNotice, String.length_append, h1, h2]
  omega

/-- A public URL always contains the storage route, so it is never empty. -/
theorem getPublicUrl_ne_empty (cfg : ClientCfg) (bucket path : String) :
    getPublicUrl cfg bucket path ≠ "" := by
  intro h
  have hlen : (getPublicUrl cfg bucket path).length = 0 := by rw [h]; rfl
  simp only [getPublicUrl, String.length_append] at hlen
  have : ("/storage/v1/object/public/" : String).length = 26 := rfl
  omega

/-! ## Handler inversion lemmas -/

/-- Every gateway call issued by the manual handler is the one built from
its parsed request body. -/
theorem manualHandler_mem_calls (cfg : SolapiCfg) (w : ManualWorld) (c : GatewayCall)
    (hc : c ∈ (manualHandler cfg w).calls) :
    ∃ r, w.body = .ok r ∧ c = manualCall cfg w r := by
  unfold manualHandler at hc
  split at hc
  · simp at hc
  split at hc
  · simp at hc
  next r heq =>
    split at hc
    · simp at hc
    · refine ⟨r, heq, ?_⟩
      split at hc
      · simpa using hc
      split at hc
      · simpa using hc
      split at hc
      · split at hc <;> simpa using hc
      · simpa using hc

/-- Every gateway call issued by a webhook handler is the one built from
the webhook record. -/
theorem webhookHandlerWith_mem_calls (auth : SolapiCfg → String → String → String)
    (cfg : SolapiCfg) (w : WebhookWorld) (c : GatewayCall)
    (hc : c ∈ (webhookHandlerWith auth cfg w).calls) :
    ∃ r, w.body = .ok r ∧ c = webhookCall auth cfg w r := by
  unfold webhookHandlerWith at hc
  split at hc
  · simp at hc
  next r heq =>
    refine ⟨r, heq, ?_⟩
    split at hc
    · simpa using hc
    split at hc
    · simpa using hc
    split at hc <;> simpa using hc

/-- Every update the manual handler attempts sets `sms_sent := true` and a
populated `sms_sent_at` together, keyed by the request's registration id. -/
theorem manualHandler_attempted_inv (cfg : SolapiCfg) (w : ManualWorld) (u : DbUpdate)
    (h : (manualHandler cfg w).attempted = some u) :
    u.sms_sent = true ∧ u.sms_sent_at = some w.updateDate := by
  unfold manualHandler at h
  split at h
  · simp at h
  split at h
  · simp at h
  next r heq =>
    split at h
    · simp at h
    · split at h
      · simp at h
      split at h
      · simp at h
      split at h
      · split at h <;> (obtain rfl : u = _ := by simpa using h.symm) <;> exact ⟨rfl, rfl⟩
      · simp at h

/-- Every update a webhook handler attempts sets `sms_sent := true` and a
populated `sms_sent_at` together. -/
theorem webhookHandlerWith_attempted_inv (auth : SolapiCfg → String → String → String)
    (cfg : SolapiCfg) (w : WebhookWorld) (u : DbUpdate)
    (h : (webhookHandlerWith auth cfg w).attempted = some u) :
    u.sms_sent = true ∧ u.sms_sent_at = some w.updateDate := by
  unfold webhookHandlerWith at h
  split at h
  · simp at h
  next r heq =>
    split at h
    · simp at h
    split at h
    · simp at h
    split at h <;> (obtain rfl : u = _ := by simpa using h.symm) <;> exact ⟨rfl, rfl⟩

/-- A row reaches `insert` only when validation passed and both uploads
returned paths, and then it is exactly the insert object over those paths. -/
theorem handleSubmitGen_inserted_inv {Row : Type} (hasErr : Bool)
    (mkRow : String → String → Row) (w : SubmitWorld) (row : Row)
    (h : (handleSubmitGen hasErr mkRow w).inserted = some row) :
    hasErr = false ∧ ∃ bodyPath facePath, w.bodyUp = .ok bodyPath ∧
      w.faceUp = .ok facePath ∧ row = mkRow bodyPath facePath := by
  unfold handleSubmitGen at h
  split at h
  · simp at h
  next hv =>
    refine ⟨by simpa using hv, ?_⟩
    split at h
    · simp at h
    · split at h
      · simp at h
      · simp at h
      next bodyPath facePath hbu hfu =>
        refine ⟨bodyPath, facePath, hbu, hfu, ?_⟩
        split at h <;> simpa using h.symm

/-- When validation passes, compression succeeds and both uploads return
paths, the row built from those paths is handed to `insert`. -/
theorem handleSubmitGen_inserts {Row : Type} (mkRow : String → String → Row)
    (w : SubmitWorld) (cb cf : JsFile) (pb pf : String)
    (hcomp : w.compress = .ok (cb, cf)) (hbu : w.bodyUp = .ok pb)
    (hfu : w.faceUp = .ok pf) :
    (handleSubmitGen false mkRow w).inserted = some (mkRow pb pf) := by
  unfold handleSubmitGen
  rw [if_neg (by simp)]
  rw [hcomp]
  dsimp only
  rw [hbu, hfu]
  dsimp only
  split <;> rfl

/-- Failing validation aborts the submission before any effect. -/
theorem handleSubmitGen_abort {Row : Type} (mkRow : String → String → Row)
    (w : SubmitWorld) :
    handleSubmitGen true mkRow w =
      { compressionAttempted := false, uploadKeys := none, inserted := none,
        insertOk := false, success := false } := by
  unfold handleSubmitGen
  rw [if_pos rfl]

/-- A failed upload on either photo prevents the insert. -/
theorem handleSubmitGen_upload_err {Row : Type} (hasErr : Bool)
    (mkRow : String → String → Row) (w : SubmitWorld)
    (h : isErr w.bodyUp = true ∨ isErr w.faceUp = true) :
    (handleSubmitGen hasErr mkRow w).inserted = none := by
  unfold handleSubmitGen
  split
  · rfl
  split
  · rfl
  · split
    · rfl
    · rfl
    next hbu hfu =>
      rw [hbu, hfu] at h
      simp [isErr] at h

/-! ## Concrete fixtures for witnesses and counterexamples -/

def cfg0 : SolapiCfg :=
  { apiKey := "KEY", apiSecret := "SECRET", sender := "0212345678" }

def req0 : SmsRequest :=
  { phone := "010-1111-2222", message := "입금이 확인되어 참가가 확정되었습니다.",
    registrationId := "reg-1" }

/-- A manual-approval invocation whose gateway `fetch` throws. -/
def mwFetchErr : ManualWorld :=
  { method := "POST", body := .ok req0, date := "2026-02-01T00:00:00.000Z",
    salt := "5e0e4f3a-1c2d-4b6a-9f0e-aaaaaaaaaaaa",
    fetchResult := .error "TypeError: error sending request",
    jsonResult := .ok "\x7b\x7d", updateDate := "2026-02-01T00:00:01.000Z",
    dbResult := .ok true }

def rec0 : RegistrationRecord :=
  { id := "11111111-2222-3333-4444-555555555555", name := "Kim",
    phone := "01011112222" }

/-- A webhook invocation that runs to completion. -/
def wwOk : WebhookWorld :=
  { body := .ok rec0, date := "2026-02-01T00:00:00.000Z",
    salt := "5e0e4f3a-1c2d-4b6a-9f0e-bbbbbbbbbbbb",
    fetchResult := .ok (), jsonResult := .ok "\x7b\x22statusCode\x22:\x222000\x22\x7d",
    updateDate := "2026-02-01T00:00:01.000Z", dbResult := .ok true }

/-- A webhook invocation whose gateway `fetch` throws. -/
def wwFetchErr : WebhookWorld :=
  { wwOk with fetchResult := .error "TypeError: error sending request" }

def row0 : RegRow :=
  { id := "11111111-2222-3333-4444-555555555555", sms_sent := false, sms_sent_at := none }

/-- A webhook invocation whose gateway response body fails to parse as JSON. -/
def wwJsonErr : WebhookWorld :=
  { wwOk with jsonResult := .error "SyntaxError: Unexpected end of JSON input" }

/-- A webhook invocation whose record still carries a hyphenated phone. -/
def wwHyphen : WebhookWorld :=
  { wwOk with body := .ok { rec0 with phone := "010-1111-2222" } }

/-- A 90-character message body. -/
def msg90 : String := ⟨List.replicate 90 'a'⟩

/-- A 91-character message body. -/
def msg91 : String := ⟨List.replicate 91 'a'⟩

def req90 : SmsRequest :=
  { phone := "01011112222", message := msg90, registrationId := "reg-1" }

def req91 : SmsRequest :=
  { phone := "01011112222", message := msg91, registrationId := "reg-1" }

/-- A manual-approval invocation that runs to completion. -/
def mwOk : ManualWorld :=
  { mwFetchErr with fetchResult := .ok (), jsonResult := .ok "\x7b\x7d" }

def mw90 : ManualWorld := { mwOk with body := .ok req90 }

def mw91 : ManualWorld := { mwOk with body := .ok req91 }

def ccfg0 : ClientCfg := { supabaseUrl := "https://example.supabase.co" }

def jfBody : JsFile := { name := "body.jpg" }

def jfFace : JsFile := { name := "face.png" }

/-- A valid variant 1 form. -/
def form1fix : Form1 :=
  { name := "Kim", birthDate := "1999-05-01", gender := some .male,
    phone := formatPhone "010-1234-5678", instagramId := "@kim", noInstagram := false,
    height := "175", weight := "70" }

/-- A variant 1 form whose male birth year 1990 is outside 1993–2006. -/
def form1bad : Form1 := { form1fix with birthDate := "1990-05-01" }

/-- A valid variant 2 form. -/
def form2fix : Form2 :=
  { name := "Kim", birthDate := "19950501", gender := some .male,
    eventDate := "2026-03-14", phone := formatPhone "010-1234-5678",
    location := "서울", job := "개발자", height := "175", weight := "70",
    instagramId := "@kim", noInstagram := false, charm := "", preferredStyle := "",
    participationType := "개인", referralSource := "",
    agreeAlcohol := true, agreeTerms := true, agreePrivacy := true, agreeRefund := true }

/-- A variant 2 form whose male birth year 1985 is outside 1990–2004. -/
def form2bad : Form2 := { form2fix with birthDate := "19850101" }

/-- A submission world in which compression, both uploads and the insert
all succeed, the uploads echoing the requested keys. -/
def swOk : SubmitWorld :=
  { compress := .ok (jfBody, jfFace), ts := 1760000000000,
    bodyUp := .ok (bodyKey 1760000000000 jfBody),
    faceUp := .ok (faceKey 1760000000000 jfFace), insertResult := .ok () }

/-- A submission world in which the body-photo upload fails. -/
def swBodyErr : SubmitWorld :=
  { swOk with bodyUp := .error "StorageError: new row violates row-level security policy" }

/-! ## Claims -/

/-- C2: for every dispatcher invocation (manual-approval handler, or either
webhook handler variant) that throws during the gateway HTTP call, the
response has HTTP status 500, no database update is attempted, and the
target registration row is left unchanged — `sms_sent` still false. -/
theorem C2_gateway_throw_leaves_row_unsent :
    (∀ (cfg : SolapiCfg) (w : ManualWorld) (r : SmsRequest) (e : String),
      w.method ≠ "OPTIONS" → w.body = .ok r → r.phone ≠ "" → r.message ≠ "" →
      w.fetchResult = .error e →
      (manualHandler cfg w).status = 500 ∧ (manualHandler cfg w).attempted = none ∧
        ∀ row : RegRow, applyResult (manualHandler cfg w) row = row) ∧
    (∀ (cfg : SolapiCfg) (w : WebhookWorld) (r : RegistrationRecord) (e : String),
      w.body = .ok r → w.fetchResult = .error e →
      ((webhookHandler cfg w).status = 500 ∧ (webhookHandler cfg w).attempted = none ∧
        ∀ row : RegRow, applyResult (webhookHandler cfg w) row = row) ∧
      ((indexHandler cfg w).status = 500 ∧ (indexHandler cfg w).attempted = none ∧
        ∀ row : RegRow, applyResult (indexHandler cfg w) row = row)) := by
  constructor
  · intro cfg w r e hm hb hp hmsg hf
    have : manualHandler cfg w =
        { status := 500, errorMsg := some e, calls := [manualCall cfg w r],
          attempted := none, applied := false } := by
      unfold manualHandler
      rw [if_neg hm, hb]
      simp only
      rw [if_neg (by simp [hp, hmsg]), hf]
    rw [this]
    exact ⟨rfl, rfl, fun row => rfl⟩
  · intro cfg w r e hb hf
    constructor <;>
    · have : webhookHandlerWith (fun cfg date salt => getSolapiAuthHeader cfg date salt) cfg w =
          webhookHandlerWith getSolapiAuthHeader cfg w := rfl
      constructor
      · simp only [webhookHandler, indexHandler, webhookHandlerWith, hb, hf]
      constructor
      · simp only [webhookHandler, indexHandler, webhookHandlerWith, hb, hf]
      · intro row
        simp only [webhookHandler, indexHandler, webhookHandlerWith, hb, hf, applyResult]

theorem C2_witness :
    ((manualHandler cfg0 mwFetchErr).status = 500 ∧
      applyResult (manualHandler cfg0 mwFetchErr) row0 = row0) ∧
    ((webhookHandler cfg0 wwFetchErr).status = 500 ∧
      applyResult (webhookHandler cfg0 wwFetchErr) row0 = row0) ∧
    ((indexHandler cfg0 wwFetchErr).status = 500 ∧
      applyResult (indexHandler cfg0 wwFetchErr) row0 = row0) := by
  have h1 := C2_gateway_throw_leaves_row_unsent.1 cfg0 mwFetchErr req0
    "TypeError: error sending request" (by decide) rfl (by decide) (by decide) rfl
  have h2 := C2_gateway_throw_leaves_row_unsent.2 cfg0 wwFetchErr rec0
    "TypeError: error sending request" rfl rfl
  exact ⟨⟨h1.1, h1.2.2 row0⟩, ⟨h2.1.1, h2.1.2.2 row0⟩, ⟨h2.2.1, h2.2.2.2 row0⟩⟩

/-- C9: a manual-trigger request whose parsed JSON body has an empty (or
absent, parsed as empty) `phone` or `message` is answered with HTTP 400 and
an error body, and neither a gateway call nor a database update happens. -/
theorem C9_missing_field_400 (cfg : SolapiCfg) (w : ManualWorld) (r : SmsRequest)
    (hm : w.method ≠ "OPTIONS") (hb : w.body = .ok r)
    (h : r.phone = "" ∨ r.message = "") :
    (manualHandler cfg w).status = 400 ∧
    (manualHandler cfg w).errorMsg = some "phone and message are required" ∧
    (manualHandler cfg w).calls = [] ∧
    (manualHandler cfg w).attempted = none := by
  unfold manualHandler
  rw [if_neg hm, hb]
  simp [if_pos h]

theorem C9_witness :
    (manualHandler cfg0
        { mwFetchErr with body := .ok { phone := "", message := "m", registrationId := "" } }).status = 400 ∧
    (manualHandler cfg0
        { mwFetchErr with body := .ok { phone := "", message := "m", registrationId := "" } }).calls = [] := by
  have h := C9_missing_field_400 cfg0
    { mwFetchErr with body := .ok { phone := "", message := "m", registrationId := "" } }
    { phone := "", message := "m", registrationId := "" }
    (by decide) rfl (Or.inl rfl)
  exact ⟨h.1, h.2.2.1⟩

/-- C3: for every gateway call issued by any dispatcher invocation (manual
or either webhook variant), the wire message type is `'SMS'` iff the body
has at most 90 characters, and `'LMS'` iff it has more; the webhook
handlers hardcode `'LMS'` but their templated body always exceeds 90
characters (115 plus the name), so the equivalence holds for every call. -/
theorem C3_sms_type_boundary (cfg : SolapiCfg) (wm : ManualWorld) (ww wi : WebhookWorld)
    (c : GatewayCall)
    (hc : c ∈ (manualHandler cfg wm).calls ∨ c ∈ (webhookHandler cfg ww).calls ∨
      c ∈ (indexHandler cfg wi).calls) :
    (c.msgType = "SMS" ↔ c.text.length ≤ 90) ∧
    (c.msgType = "LMS" ↔ 90 < c.text.length) := by
  have key : 90 < c.text.length ∧ c.msgType = "LMS" ∨
      c.text.length ≤ 90 ∧ c.msgType = "SMS" := by
    rcases hc with h | h | h
    · obtain ⟨r, -, rfl⟩ := manualHandler_mem_calls cfg wm c h
      by_cases hlen : 90 < r.message.length
      · exact Or.inl ⟨hlen, by simp [manualCall, if_pos hlen]⟩
      · exact Or.inr ⟨by show r.message.length ≤ 90; omega,
          by simp [manualCall, if_neg hlen]⟩
    · obtain ⟨r, -, rfl⟩ := webhookHandlerWith_mem_calls _ cfg ww c h
      refine Or.inl ⟨?_, rfl⟩
      show 90 < (depositNotice r.name).length
      rw [depositNotice_length]
      omega
    · obtain ⟨r, -, rfl⟩ := webhookHandlerWith_mem_calls _ cfg wi c h
      refine Or.inl ⟨?_, rfl⟩
      show 90 < (depositNotice r.name).length
      rw [depositNotice_length]
      omega
  rcases key with ⟨hl, hm⟩ | ⟨hl, hm⟩
  · refine ⟨⟨fun h => ?_, fun h => absurd h (by omega)⟩, ⟨fun _ => hl, fun _ => hm⟩⟩
    rw [hm] at h
    exact absurd h (by decide)
  · refine ⟨⟨fun _ => hl, fun _ => hm⟩, ⟨fun h => ?_, fun h => absurd h (by omega)⟩⟩
    rw [hm] at h
    exact absurd h (by decide)

theorem C3_witness :
    (manualCall cfg0 mw90 req90).msgType = "SMS" ∧ msg90.length = 90 ∧
    (manualCall cfg0 mw91 req91).msgType = "LMS" ∧ msg91.length = 91 := by
  have e90 : (manualHandler cfg0 mw90).calls = [manualCall cfg0 mw90 req90] := rfl
  have e91 : (manualHandler cfg0 mw91).calls = [manualCall cfg0 mw91 req91] := rfl
  have h90 := C3_sms_type_boundary cfg0 mw90 wwOk wwOk (manualCall cfg0 mw90 req90)
    (Or.inl (by rw [e90]; exact List.mem_singleton_self _))
  have h91 := C3_sms_type_boundary cfg0 mw91 wwOk wwOk (manualCall cfg0 mw91 req91)
    (Or.inl (by rw [e91]; exact List.mem_singleton_self _))
  exact ⟨h90.1.mpr (by decide), by decide, h91.2.mpr (by decide), by decide⟩

/-- C7: every write this system makes keeps `sms_sent = true` and a
populated `sms_sent_at` together — each dispatcher update sets both in the
same operation, and every row handed to `insert` by either form variant
starts with `sms_sent = false` and no `sms_sent_at`. -/
theorem C7_notified_fields_together :
    (∀ (cfg : SolapiCfg) (w : ManualWorld) (u : DbUpdate),
      (manualHandler cfg w).attempted = some u →
      u.sms_sent = true ∧ u.sms_sent_at ≠ none) ∧
    (∀ (cfg : SolapiCfg) (w : WebhookWorld) (u : DbUpdate),
      (webhookHandler cfg w).attempted = some u ∨
        (indexHandler cfg w).attempted = some u →
      u.sms_sent = true ∧ u.sms_sent_at ≠ none) ∧
    (∀ (cfg : ClientCfg) (f : Form1) (bp fp : Option JsFile) (w : SubmitWorld) (row : Row1),
      (handleSubmit1 cfg f bp fp w).inserted = some row →
      row.sms_sent = false ∧ row.sms_sent_at = none) ∧
    (∀ (cfg : ClientCfg) (f : Form2) (bp fp : Option JsFile) (w : SubmitWorld) (row : Row2),
      (handleSubmit2 cfg f bp fp w).inserted = some row →
      row.sms_sent = false ∧ row.sms_sent_at = none) := by
  refine ⟨?_, ?_, ?_, ?_⟩
  · intro cfg w u h
    have hinv := manualHandler_attempted_inv cfg w u h
    exact ⟨hinv.1, by rw [hinv.2]; simp⟩
  · intro cfg w u h
    rcases h with h | h <;>
    · have hinv := webhookHandlerWith_attempted_inv _ cfg w u h
      exact ⟨hinv.1, by rw [hinv.2]; simp⟩
  · intro cfg f bp fp w row h
    obtain ⟨-, pb, pf, -, -, rfl⟩ := handleSubmitGen_inserted_inv _ _ _ _ h
    exact ⟨rfl, rfl⟩
  · intro cfg f bp fp w row h
    obtain ⟨-, pb, pf, -, -, rfl⟩ := handleSubmitGen_inserted_inv _ _ _ _ h
    exact ⟨rfl, rfl⟩

theorem C7_witness :
    ((manualHandler cfg0 mwOk).attempted.map DbUpdate.sms_sent = some true) ∧
    ((insertRow1 ccfg0 form1fix (bodyKey swOk.ts jfBody) (faceKey swOk.ts jfFace)).sms_sent
      = false) := by
  have h1 := C7_notified_fields_together.1 cfg0 mwOk
    { sms_sent := true, sms_sent_at := some mwOk.updateDate, id := "reg-1" } rfl
  have h2 := C7_notified_fields_together.2.2.1 ccfg0 form1fix (some jfBody) (some jfFace)
    swOk (insertRow1 ccfg0 form1fix (bodyKey swOk.ts jfBody) (faceKey swOk.ts jfFace))
    rfl
  refine ⟨?_, h2.1⟩
  have e : (manualHandler cfg0 mwOk).attempted =
      some { sms_sent := true, sms_sent_at := some mwOk.updateDate, id := "reg-1" } := rfl
  rw [e]
  simp [h1.1]

/-- C1 (code defect, evaluated at a failing input): the webhook handler of
`index.ts` sends an Authorization header that ends right after `signature=`
— the signature component is empty and no HMAC is computed — while the
handlers of `part_000` send the same header completed with the 64-character
hex HMAC-SHA256 of `date ++ salt` keyed by the API secret, which is what
the spec requires of every dispatcher. -/
theorem C1_index_header_signature_empty :
    ((indexHandler cfg0 wwOk).calls.map GatewayCall.authorization =
      ["HMAC-SHA256 apiKey=KEY, date=2026-02-01T00:00:00.000Z, salt=5e0e4f3a-1c2d-4b6a-9f0e-bbbbbbbbbbbb, signature="]) ∧
    ((webhookHandler cfg0 wwOk).calls.map GatewayCall.authorization =
      [indexAuthHeader cfg0 wwOk.date wwOk.salt ++
        encodeHex (hmacSha256 (utf8Bytes "SECRET")
          (utf8Bytes ("2026-02-01T00:00:00.000Z" ++ "5e0e4f3a-1c2d-4b6a-9f0e-bbbbbbbbbbbb")))]) ∧
    ∀ (cfg : SolapiCfg) (date salt : String),
      (encodeHex (hmacSha256 (utf8Bytes cfg.apiSecret) (utf8Bytes (date ++ salt)))).length = 64 ∧
      getSolapiAuthHeader cfg date salt =
        indexAuthHeader cfg date salt ++
          encodeHex (hmacSha256 (utf8Bytes cfg.apiSecret) (utf8Bytes (date ++ salt))) := by
  refine ⟨rfl, rfl, fun cfg date salt => ⟨?_, rfl⟩⟩
  rw [encodeHex_length, hmacSha256_length]

/-- C4 counterexample: a webhook invocation whose record carries the
hyphenated phone `010-1111-2222` makes both webhook handler variants send
exactly that non-digit string as the gateway recipient — no stripping. -/
theorem C4_webhook_phone_not_stripped :
    (indexHandler cfg0 wwHyphen).calls.map GatewayCall.toPhone = ["010-1111-2222"] ∧
    (webhookHandler cfg0 wwHyphen).calls.map GatewayCall.toPhone = ["010-1111-2222"] ∧
    allDigits "010-1111-2222" = false := by
  exact ⟨rfl, rfl, by decide⟩

/-- C4 (amended): the row stored by either form variant and the recipient
sent by the manual dispatcher are digit-stripped (digits only); the webhook
dispatchers forward the record's phone verbatim, so their recipient is
digits-only exactly when the stored row's phone is. -/
theorem C4_phone_digits_amended :
    (∀ (cfg : ClientCfg) (f : Form1) (bp fp : Option JsFile) (w : SubmitWorld) (row : Row1),
      (handleSubmit1 cfg f bp fp w).inserted = some row →
      row.phone = stripNonDigits f.phone ∧ allDigits row.phone = true) ∧
    (∀ (cfg : ClientCfg) (f : Form2) (bp fp : Option JsFile) (w : SubmitWorld) (row : Row2),
      (handleSubmit2 cfg f bp fp w).inserted = some row →
      row.phone = stripNonDigits f.phone ∧ allDigits row.phone = true) ∧
    (∀ (cfg : SolapiCfg) (w : ManualWorld) (c : GatewayCall),
      c ∈ (manualHandler cfg w).calls → allDigits c.toPhone = true) ∧
    (∀ (cfg : SolapiCfg) (w : WebhookWorld) (r : RegistrationRecord) (c : GatewayCall),
      w.body = .ok r →
      c ∈ (webhookHandler cfg w).calls ∨ c ∈ (indexHandler cfg w).calls →
      c.toPhone = r.phone) := by
  refine ⟨?_, ?_, ?_, ?_⟩
  · intro cfg f bp fp w row h
    obtain ⟨-, pb, pf, -, -, rfl⟩ := handleSubmitGen_inserted_inv _ _ _ _ h
    exact ⟨rfl, allDigits_stripNonDigits _⟩
  · intro cfg f bp fp w row h
    obtain ⟨-, pb, pf, -, -, rfl⟩ := handleSubmitGen_inserted_inv _ _ _ _ h
    exact ⟨rfl, allDigits_stripNonDigits _⟩
  · intro cfg w c hc
    obtain ⟨r, -, rfl⟩ := manualHandler_mem_calls cfg w c hc
    exact allDigits_stripNonDigits _
  · intro cfg w r c hb hc
    rcases hc with hc | hc <;>
    · obtain ⟨r2, hb2, rfl⟩ := webhookHandlerWith_mem_calls _ cfg w c hc
      rw [hb] at hb2
      cases hb2
      rfl

theorem C4_witness :
    allDigits (insertRow1 ccfg0 form1fix (bodyKey swOk.ts jfBody)
      (faceKey swOk.ts jfFace)).phone = true ∧
    allDigits (manualCall cfg0 mwOk req0).toPhone = true := by
  have e : (manualHandler cfg0 mwOk).calls = [manualCall cfg0 mwOk req0] := rfl
  have h1 := C4_phone_digits_amended.1 ccfg0 form1fix (some jfBody) (some jfFace) swOk
    (insertRow1 ccfg0 form1fix (bodyKey swOk.ts jfBody) (faceKey swOk.ts jfFace)) rfl
  have h2 := C4_phone_digits_amended.2.2.1 cfg0 mwOk (manualCall cfg0 mwOk req0)
    (by rw [e]; exact List.mem_singleton_self _)
  exact ⟨h1.2, h2⟩

/-- C8 counterexample: a webhook invocation whose gateway HTTP call
completes with a response whose body then fails to parse as JSON ends in
the catch block — status 500 and no update attempted — so the update is
not attempted for every invocation in which the HTTP call completes. -/
theorem C8_json_parse_skips_update :
    wwJsonErr.fetchResult = .ok () ∧
    (webhookHandler cfg0 wwJsonErr).attempted = none ∧
    (webhookHandler cfg0 wwJsonErr).status = 500 := ⟨rfl, rfl, rfl⟩

/-- C8 (amended): whenever the gateway HTTP call completes and its response
body is consumed as JSON without throwing (and, in the manual handler, a
non-empty registrationId was supplied), the row update is attempted, and
the attempt is the same whatever the parsed response content — it never
depends on gateway-reported logical delivery success. -/
theorem C8_update_attempted_amended :
    (∀ (cfg : SolapiCfg) (w : WebhookWorld) (r : RegistrationRecord) (j : String),
      w.body = .ok r → w.fetchResult = .ok () → w.jsonResult = .ok j →
      (webhookHandler cfg w).attempted =
        some { sms_sent := true, sms_sent_at := some w.updateDate, id := r.id } ∧
      (indexHandler cfg w).attempted =
        some { sms_sent := true, sms_sent_at := some w.updateDate, id := r.id }) ∧
    (∀ (cfg : SolapiCfg) (w : ManualWorld) (r : SmsRequest) (j : String),
      w.method ≠ "OPTIONS" → w.body = .ok r → ¬(r.phone = "" ∨ r.message = "") →
      r.registrationId ≠ "" → w.fetchResult = .ok () → w.jsonResult = .ok j →
      (manualHandler cfg w).attempted =
        some { sms_sent := true, sms_sent_at := some w.updateDate, id := r.registrationId }) := by
  constructor
  · intro cfg w r j hb hf hj
    constructor <;>
    · show (webhookHandlerWith _ cfg w).attempted = _
      unfold webhookHandlerWith
      rw [hb]
      dsimp only
      rw [hf]
      dsimp only
      rw [hj]
      dsimp only
      split <;> rfl
  · intro cfg w r j hm hb hp hr hf hj
    unfold manualHandler
    rw [if_neg hm, hb]
    dsimp only
    rw [if_neg hp, hf]
    dsimp only
    rw [hj]
    dsimp only
    rw [if_pos hr]
    split <;> rfl

theorem C8_witness :
    (webhookHandler cfg0 wwOk).attempted =
      some { sms_sent := true, sms_sent_at := some wwOk.updateDate, id := rec0.id } ∧
    (manualHandler cfg0 mwOk).attempted =
      some { sms_sent := true, sms_sent_at := some mwOk.updateDate,
             id := req0.registrationId } := by
  have h1 := (C8_update_attempted_amended.1 cfg0 wwOk rec0 _ rfl rfl rfl).1
  have h2 := C8_update_attempted_amended.2 cfg0 mwOk req0 "\x7b\x7d" (by decide) rfl
    (by decide) (by decide) rfl rfl
  exact ⟨h1, h2⟩

/-- C5: if either photo upload fails, no row reaches `insert` (in either
form variant); if validation passed, compression succeeded and both uploads
stored the requested keys, a row reaches `insert` whose photo-URL columns
are the public URLs derived from the `<ts>_body.<ext>` / `<ts>_face.<ext>`
object keys, and both are non-empty. -/
theorem C5_upload_gate :
    (∀ (cfg : ClientCfg) (f : Form1) (bp fp : Option JsFile) (w : SubmitWorld),
      isErr w.bodyUp = true ∨ isErr w.faceUp = true →
      (handleSubmit1 cfg f bp fp w).inserted = none) ∧
    (∀ (cfg : ClientCfg) (f : Form2) (bp fp : Option JsFile) (w : SubmitWorld),
      isErr w.bodyUp = true ∨ isErr w.faceUp = true →
      (handleSubmit2 cfg f bp fp w).inserted = none) ∧
    (∀ (cfg : ClientCfg) (f : Form1) (bp fp : Option JsFile) (w : SubmitWorld) (cb cf : JsFile),
      hasErrors1 (validateForm1 f bp fp) = false → w.compress = .ok (cb, cf) →
      w.bodyUp = .ok (bodyKey w.ts cb) → w.faceUp = .ok (faceKey w.ts cf) →
      ∃ row : Row1, (handleSubmit1 cfg f bp fp w).inserted = some row ∧
        row.body_photo_url = getPublicUrl cfg "registrations" (bodyKey w.ts cb) ∧
        row.face_photo_url = getPublicUrl cfg "registrations" (faceKey w.ts cf) ∧
        row.body_photo_url ≠ "" ∧ row.face_photo_url ≠ "") ∧
    (∀ (cfg : ClientCfg) (f : Form2) (bp fp : Option JsFile) (w : SubmitWorld) (cb cf : JsFile),
      hasErrors2 (validateForm2 f bp fp) = false → w.compress = .ok (cb, cf) →
      w.bodyUp = .ok (bodyKey w.ts cb) → w.faceUp = .ok (faceKey w.ts cf) →
      ∃ row : Row2, (handleSubmit2 cfg f bp fp w).inserted = some row ∧
        row.body_photo_url = getPublicUrl cfg "registrations" (bodyKey w.ts cb) ∧
        row.face_photo_url = getPublicUrl cfg "registrations" (faceKey w.ts cf) ∧
        row.body_photo_url ≠ "" ∧ row.face_photo_url ≠ "") := by
  refine ⟨?_, ?_, ?_, ?_⟩
  · intro cfg f bp fp w h
    exact handleSubmitGen_upload_err _ _ _ h
  · intro cfg f bp fp w h
    exact handleSubmitGen_upload_err _ _ _ h
  · intro cfg f bp fp w cb cf hv hcomp hbu hfu
    refine ⟨insertRow1 cfg f (bodyKey w.ts cb) (faceKey w.ts cf), ?_, rfl, rfl,
      getPublicUrl_ne_empty _ _ _, getPublicUrl_ne_empty _ _ _⟩
    show (handleSubmitGen _ _ w).inserted = _
    rw [hv]
    exact handleSubmitGen_inserts _ w cb cf _ _ hcomp hbu hfu
  · intro cfg f bp fp w cb cf hv hcomp hbu hfu
    refine ⟨insertRow2 cfg f (bodyKey w.ts cb) (faceKey w.ts cf), ?_, rfl, rfl,
      getPublicUrl_ne_empty _ _ _, getPublicUrl_ne_empty _ _ _⟩
    show (handleSubmitGen _ _ w).inserted = _
    rw [hv]
    exact handleSubmitGen_inserts _ w cb cf _ _ hcomp hbu hfu

theorem C5_witness :
    (handleSubmit1 ccfg0 form1fix (some jfBody) (some jfFace) swBodyErr).inserted = none ∧
    (handleSubmit1 ccfg0 form1fix (some jfBody) (some jfFace) swOk).inserted =
      some (insertRow1 ccfg0 form1fix (bodyKey swOk.ts jfBody) (faceKey swOk.ts jfFace)) ∧
    (insertRow1 ccfg0 form1fix (bodyKey swOk.ts jfBody)
      (faceKey swOk.ts jfFace)).body_photo_url ≠ "" ∧
    (insertRow1 ccfg0 form1fix (bodyKey swOk.ts jfBody)
      (faceKey swOk.ts jfFace)).face_photo_url ≠ "" := by
  have h1 := C5_upload_gate.1 ccfg0 form1fix (some jfBody) (some jfFace) swBodyErr
    (Or.inl rfl)
  obtain ⟨row, hr, -, -, hnb, hnf⟩ := C5_upload_gate.2.2.1 ccfg0 form1fix (some jfBody)
    (some jfFace) swOk jfBody jfFace rfl rfl rfl rfl
  have e : row = insertRow1 ccfg0 form1fix (bodyKey swOk.ts jfBody)
      (faceKey swOk.ts jfFace) := by
    apply Option.some.inj
    rw [← hr]
    rfl
  exact ⟨h1, rfl, e ▸ hnb, e ▸ hnf⟩

/-- A birth year outside the variant 1 window for the selected gender makes
the `birthDate` error key present. -/
theorem birthDateError1_isSome_of_out (f : Form1) (g : Gender) (y : Int)
    (hg : f.gender = some g) (hbd : f.birthDate ≠ "")
    (hy : jsParseInt (firstSplit '-' f.birthDate) = some y)
    (hout : (g = .male ∧ (y < 1993 ∨ 2006 < y)) ∨ (g = .female ∧ (y < 1993 ∨ 2007 < y))) :
    (birthDateError1 f).isSome = true := by
  unfold birthDateError1
  rw [if_neg hbd, hg]
  rcases hout with ⟨rfl, hy2⟩ | ⟨rfl, hy2⟩ <;> dsimp only <;> rw [hy] <;>
    rcases hy2 with h | h <;> simp [nanLt, nanGt, h]

/-- A birth year outside the variant 2 window for the selected gender makes
the `birthDate` error key present (whether it fails the generic range check
or the gender-specific one). -/
theorem birthDateError2_isSome_of_out (f : Form2) (g : Gender) (y : Int)
    (hlen : f.birthDate.length = 8)
    (hy : jsParseInt (strSlice f.birthDate 0 4) = some y)
    (hg : f.gender = some g)
    (hout : (g = .male ∧ (y < 1990 ∨ 2004 < y)) ∨ (g = .female ∧ (y < 1992 ∨ 2005 < y))) :
    (birthDateError2 f).isSome = true := by
  have hbd : f.birthDate ≠ "" := by
    intro hemp
    rw [hemp] at hlen
    exact absurd hlen (by decide)
  unfold birthDateError2
  rw [if_neg (by simp [hlen, hbd])]
  dsimp only
  split
  · rfl
  · rcases hout with ⟨rfl, hy2⟩ | ⟨rfl, hy2⟩
    · have hc : (nanLt (jsParseInt (strSlice f.birthDate 0 4)) 1990 ||
          nanGt (jsParseInt (strSlice f.birthDate 0 4)) 2004) = true := by
        rw [hy]
        rcases hy2 with h | h <;> simp [nanLt, nanGt, h]
      rw [if_pos ⟨hg, hc⟩]
      rfl
    · have hne : ¬(f.gender = some Gender.male ∧
          (nanLt (jsParseInt (strSlice f.birthDate 0 4)) 1990 ||
           nanGt (jsParseInt (strSlice f.birthDate 0 4)) 2004) = true) := by
        intro hcontra
        rw [hg] at hcontra
        simp at hcontra
      have hc : (nanLt (jsParseInt (strSlice f.birthDate 0 4)) 1992 ||
          nanGt (jsParseInt (strSlice f.birthDate 0 4)) 2005) = true := by
        rw [hy]
        rcases hy2 with h | h <;> simp [nanLt, nanGt, h]
      rw [if_neg hne, if_pos ⟨hg, hc⟩]
      rfl

/-- A present `birthDate` error key makes variant 1 validation fail. -/
theorem hasErrors1_of_birthDate (f : Form1) (bp fp : Option JsFile)
    (h : (birthDateError1 f).isSome = true) :
    hasErrors1 (validateForm1 f bp fp) = true := by
  simp [hasErrors1, validateForm1, h]

/-- A present `birthDate` error key makes variant 2 validation fail. -/
theorem hasErrors2_of_birthDate (f : Form2) (bp fp : Option JsFile)
    (h : (birthDateError2 f).isSome = true) :
    hasErrors2 (validateForm2 f bp fp) = true := by
  simp [hasErrors2, validateForm2, h]

/-- C6: a submission whose birth year is outside the eligible window for
the selected gender (variant 1: males 1993–2006, females 1993–2007;
variant 2: males 1990–2004, females 1992–2005) gets a `birthDate`-keyed
validation error, and `handleSubmit` returns before compression, upload or
insert. -/
theorem C6_birth_year_gate :
    (∀ (f : Form1) (bp fp : Option JsFile) (g : Gender) (y : Int),
      f.gender = some g → f.birthDate ≠ "" →
      jsParseInt (firstSplit '-' f.birthDate) = some y →
      (g = .male ∧ (y < 1993 ∨ 2006 < y)) ∨ (g = .female ∧ (y < 1993 ∨ 2007 < y)) →
      (validateForm1 f bp fp).birthDate.isSome = true ∧
      ∀ (cfg : ClientCfg) (w : SubmitWorld),
        handleSubmit1 cfg f bp fp w =
          { compressionAttempted := false, uploadKeys := none, inserted := none,
            insertOk := false, success := false }) ∧
    (∀ (f : Form2) (bp fp : Option JsFile) (g : Gender) (y : Int),
      f.gender = some g → f.birthDate.length = 8 →
      jsParseInt (strSlice f.birthDate 0 4) = some y →
      (g = .male ∧ (y < 1990 ∨ 2004 < y)) ∨ (g = .female ∧ (y < 1992 ∨ 2005 < y)) →
      (validateForm2 f bp fp).birthDate.isSome = true ∧
      ∀ (cfg : ClientCfg) (w : SubmitWorld),
        handleSubmit2 cfg f bp fp w =
          { compressionAttempted := false, uploadKeys := none, inserted := none,
            insertOk := false, success := false }) := by
  constructor
  · intro f bp fp g y hg hbd hy hout
    have hb := birthDateError1_isSome_of_out f g y hg hbd hy hout
    refine ⟨hb, fun cfg w => ?_⟩
    show handleSubmitGen _ _ w = _
    rw [hasErrors1_of_birthDate f bp fp hb]
    exact handleSubmitGen_abort _ w
  · intro f bp fp g y hg hlen hy hout
    have hb := birthDateError2_isSome_of_out f g y hlen hy hg hout
    refine ⟨hb, fun cfg w => ?_⟩
    show handleSubmitGen _ _ w = _
    rw [hasErrors2_of_birthDate f bp fp hb]
    exact handleSubmitGen_abort _ w

theorem C6_witness :
    (validateForm1 form1bad (some jfBody) (some jfFace)).birthDate.isSome = true ∧
    (handleSubmit1 ccfg0 form1bad (some jfBody) (some jfFace) swOk).inserted = none ∧
    (validateForm2 form2bad (some jfBody) (some jfFace)).birthDate.isSome = true ∧
    (handleSubmit2 ccfg0 form2bad (some jfBody) (some jfFace) swOk).inserted = none := by
  have h1 := C6_birth_year_gate.1 form1bad (some jfBody) (some jfFace) .male 1990 rfl
    (by decide) (by decide) (Or.inl ⟨rfl, Or.inl (by norm_num)⟩)
  have h2 := C6_birth_year_gate.2 form2bad (some jfBody) (some jfFace) .male 1985 rfl
    (by decide) (by decide) (Or.inl ⟨rfl, Or.inl (by norm_num)⟩)
  refine ⟨h1.1, ?_, h2.1, ?_⟩
  · rw [h1.2 ccfg0 swOk]
  · rw [h2.2 ccfg0 swOk]

/-- Passing variant 1 validation forces at least ten phone digits. -/
theorem phone_ge10_of_no_errors (f : Form1) (bp fp : Option JsFile)
    (hv : hasErrors1 (validateForm1 f bp fp) = false) :
    10 ≤ (stripNonDigits f.phone).length := by
  by_contra hlt
  push_neg at hlt
  have hsome : (validateForm1 f bp fp).phone.isSome = true := by
    show (if (stripNonDigits f.phone).length < 10
      then some "올바른 연락처를 입력해주세요" else none : Option String).isSome = true
    rw [if_pos hlt]
    rfl
  simp [hasErrors1, hsome] at hv

/-- C10: `formatPhone` strips non-digits and truncates to eleven digits
before hyphenating, so the digits of any formatted value are the first
eleven digits of the raw input; consequently the phone column stored by the
form has at most eleven digits, and — because validation demands at least
ten — exactly ten or eleven. -/
theorem C10_formatPhone_truncates (v : String) (cfg : ClientCfg) (f : Form1)
    (bp fp : Option JsFile) (w : SubmitWorld) :
    stripNonDigits (formatPhone v) = strTake (stripNonDigits v) 11 ∧
    (stripNonDigits (formatPhone v)).length ≤ 11 ∧
    (f.phone = formatPhone v →
      ∀ row : Row1, (handleSubmit1 cfg f bp fp w).inserted = some row →
        row.phone = strTake (stripNonDigits v) 11 ∧
        (row.phone.length = 10 ∨ row.phone.length = 11)) := by
  have hmain := stripNonDigits_formatPhone v
  have h11 : (strTake (stripNonDigits v) 11).length ≤ 11 := by
    show ((stripNonDigits v).data.take 11).length ≤ 11
    simp [List.length_take]
  refine ⟨hmain, by rw [hmain]; exact h11, fun hp row h => ?_⟩
  obtain ⟨hv, pb, pf, -, -, rfl⟩ := handleSubmitGen_inserted_inv _ _ _ _ h
  have hrow : (insertRow1 cfg f pb pf).phone = stripNonDigits f.phone := rfl
  have h10 := phone_ge10_of_no_errors f bp fp hv
  rw [hp, hmain] at h10
  rw [hrow, hp, hmain]
  exact ⟨rfl, by omega⟩

theorem C10_witness :
    (insertRow1 ccfg0 form1fix (bodyKey swOk.ts jfBody)
      (faceKey swOk.ts jfFace)).phone.length = 10 ∨
    (insertRow1 ccfg0 form1fix (bodyKey swOk.ts jfBody)
      (faceKey swOk.ts jfFace)).phone.length = 11 := by
  exact ((C10_formatPhone_truncates "010-1234-5678" ccfg0 form1fix (some jfBody)
    (some jfFace) swOk).2.2 rfl _ rfl).2

end Gilmo
